import Mathlib

/-!
Verification development for the spotify-artist-connections repository.

The definitions below are a shallow embedding of the client-side graph logic
in `src/app/search/page.tsx`, the Spotify API route in
`src/app/api/artist-songs/route.ts`, and the playlist-export route.
React state is modelled as an explicit `GraphState` record and each handler
as a state-transition function; remote calls are modelled by passing their
outcomes as explicit parameters.
-/

namespace SpotifyGraph

/-- An artist reference as it appears inside a track's `artists` array
(`{ id: string; name: string }` in `page.tsx`). -/
structure ArtistRef where
  id : String
  name : String
deriving DecidableEq, Repr

/-- The album information attached to a track
(`album: { name: string; images?: { url: string }[] }`); an image is
modelled by its URL, and an absent `images` field by the empty list. -/
structure AlbumRef where
  name : String
  images : List String
deriving DecidableEq, Repr

/-- A `SpotifyTrack` as used by the search page. -/
structure Song where
  id : String
  name : String
  artists : List ArtistRef
  album : AlbumRef
  uri : String
  popularity : Option Nat
deriving DecidableEq, Repr

/-- A `SpotifyArtist` as used by the search page (images modelled as URLs,
an absent field as the empty list). -/
structure Artist where
  id : String
  name : String
  images : List String
  popularity : Option Nat
deriving DecidableEq, Repr

/-! ### Song fold / deduplication (`fetchAndProcessSongs`, page.tsx 247-267)

The page combines `[...currentSongs, ...newSongs]` and keeps the first
occurrence of each key `` `${song.name}|${artistNames}` `` where
`artistNames` is the comma-join of the song's artist names sorted with
JavaScript's default string sort. -/

/-- The comparison used for JavaScript's default `.sort()` on strings,
as a Boolean relation suitable for `List.mergeSort` (a stable sort,
as JavaScript's `Array.prototype.sort` is required to be). -/
def strLE (a b : String) : Bool := decide (a ≤ b)

/-- `song.artists.map(a => a.name).sort()` from the dedup key construction. -/
def sortedArtistNames (s : Song) : List String :=
  (s.artists.map (·.name)).mergeSort strLE

/-- The dedup key `` `${song.name}|${artistNames}` `` with
`artistNames = sortedNames.join(',')`. -/
def songKey (s : Song) : String :=
  s.name ++ "|" ++ String.intercalate "," (sortedArtistNames s)

/-- One pass over the combined song list, keeping the first song seen for
each key: the semantics of filling a JavaScript `Map` with
`if (!uniqueSongsMap.has(uniqueKey)) uniqueSongsMap.set(uniqueKey, song)`
and then reading `Array.from(uniqueSongsMap.values())` (insertion order). -/
def dedupSongsAux (seen : List String) : List Song → List Song
  | [] => []
  | s :: rest =>
    if songKey s ∈ seen then dedupSongsAux seen rest
    else s :: dedupSongsAux (songKey s :: seen) rest

/-- The fold of newly fetched songs into the accumulated collection:
`allSongs = [...currentSongs, ...newSongs]` deduplicated by `songKey`,
first-seen wins (page.tsx 249-263). -/
def foldFetchedSongs (currentSongs newSongs : List Song) : List Song :=
  dedupSongsAux [] (currentSongs ++ newSongs)

/-! ### Suggestion recomputation (`recalculateGraphState`, page.tsx 137-203) -/

/-- One entry of the `counts` object: artist id ↦ name, count and a
representative image (page.tsx 154, 170-176).  The object is keyed by
artist id, so ids are unique; it is modelled as an insertion-ordered
association list, matching `Object.entries` order for Spotify's
non-numeric artist ids. -/
structure CollabEntry where
  id : String
  name : String
  count : Nat
  images : List String
deriving DecidableEq, Repr

/-- `song.album.images[song.album.images.length - 1]` wrapped as
`potentialImage ? [potentialImage] : []` (page.tsx 167-173). -/
def smallestAlbumImage (album : AlbumRef) : List String :=
  match album.images.getLast? with
  | some img => [img]
  | none => []

/-- The body of the `collaboratorsOnSong.forEach` loop (page.tsx 165-177):
initialise the entry with count 0 on first encounter, then increment. -/
def bumpCollab (counts : List CollabEntry) (a : ArtistRef) (album : AlbumRef) :
    List CollabEntry :=
  if counts.any (fun e => e.id == a.id) then
    counts.map (fun e => if e.id == a.id then { e with count := e.count + 1 } else e)
  else
    counts ++ [⟨a.id, a.name, 1, smallestAlbumImage album⟩]

/-- The body of the `currentSongs.forEach` loop (page.tsx 156-179). -/
def processSongCounts (graphArtistIds : List String) (counts : List CollabEntry)
    (song : Song) : List CollabEntry :=
  let collaboratorsOnSong := song.artists.filter (fun a => !graphArtistIds.contains a.id)
  let isRelevantCollaboration :=
    song.artists.any (fun a => graphArtistIds.contains a.id)
      && !collaboratorsOnSong.isEmpty
  if isRelevantCollaboration then
    collaboratorsOnSong.foldl (fun c a => bumpCollab c a song.album) counts
  else counts

/-- The full `counts` object after the loop over `currentSongs`. -/
def collabCounts (graphArtistIds : List String) (songs : List Song) :
    List CollabEntry :=
  songs.foldl (processSongCounts graphArtistIds) []

/-- The comparator `(a, b) => b.count - a.count` (page.tsx 185): `a` may
come before `b` iff `b.count ≤ a.count`.  JavaScript's `Array.prototype.sort`
is a stable sort, modelled by `List.mergeSort`. -/
def countGE (a b : CollabEntry) : Bool := decide (b.count ≤ a.count)

/-- `potentialCollaborators`: the candidate entries sorted by count
descending, ties kept in first-encountered order (page.tsx 182-185). -/
def sortCollaborators (entries : List CollabEntry) : List CollabEntry :=
  entries.mergeSort countGE

/-- Mapping a sorted entry to a suggested artist (page.tsx 188-192);
an absent `images` field is modelled as the empty list. -/
def suggestionOfEntry (e : CollabEntry) : Artist := ⟨e.id, e.name, e.images, none⟩

/-- The React state of the search page that the graph logic touches,
gathered into one record. -/
structure GraphState where
  artistQuery : String
  selectedArtist : Option Artist
  isFetchingSongs : Bool
  artistSongs : List Song
  songFetchError : Option String
  collaborationCount : Nat
  suggestedArtists : List Artist
  collaboratorCounts : List CollabEntry
  graphedArtists : List Artist
deriving DecidableEq, Repr

/-- `recalculateGraphState(currentGraphArtists, currentSongs)`
(page.tsx 137-203) as a transition on the page state.  It first resets
suggestions and counts; on an empty graph it clears songs, the search
query and the selected seed artist and stops; otherwise it recomputes
counts, sorts, and exposes the top 10 plus the candidate total. -/
def recalculateGraphState (st : GraphState) (currentGraphArtists : List Artist)
    (currentSongs : List Song) : GraphState :=
  let st := { st with suggestedArtists := [], collaboratorCounts := [],
                      collaborationCount := 0 }
  if currentGraphArtists.isEmpty then
    { st with artistSongs := [], artistQuery := "", selectedArtist := none }
  else
    let graphArtistIds := currentGraphArtists.map (·.id)
    let counts := collabCounts graphArtistIds currentSongs
    let potentialCollaborators := sortCollaborators counts
    let topSuggestions := (potentialCollaborators.take 10).map suggestionOfEntry
    { st with collaboratorCounts := counts,
              suggestedArtists := topSuggestions,
              collaborationCount := potentialCollaborators.length }

/-- `handleRemoveArtist(artistIdToRemove)` (page.tsx 351-372). -/
def handleRemoveArtist (st : GraphState) (artistIdToRemove : String) : GraphState :=
  let updatedGraphedArtists :=
    st.graphedArtists.filter (fun artist => !(artist.id == artistIdToRemove))
  let remainingArtistIds := updatedGraphedArtists.map (·.id)
  let updatedSongs := st.artistSongs.filter
    (fun song => song.artists.any (fun artist => remainingArtistIds.contains artist.id))
  let st := { st with graphedArtists := updatedGraphedArtists,
                      artistSongs := updatedSongs }
  recalculateGraphState st updatedGraphedArtists updatedSongs

/-- The outcome of the `/api/artist-songs` fetch inside
`fetchAndProcessSongs`, passed in explicitly: either the fetched song list
or the thrown error's message. -/
inductive FetchOutcome where
  | success (newSongs : List Song)
  | failure (message : String)
deriving DecidableEq, Repr

/-- `fetchAndProcessSongs(artistToFetch, currentSongs, allGraphArtists)`
(page.tsx 221-284) as a transition on the page state, given the fetch
outcome.  On success the combined list is deduplicated and suggestions are
recomputed; on failure the error is recorded, previously accumulated songs
are kept, and derived suggestion state is cleared; the in-flight guard is
always released in the `finally` block. -/
def fetchAndProcessSongs (st : GraphState) (currentSongs : List Song)
    (allGraphArtists : List Artist) (outcome : FetchOutcome) : GraphState :=
  let st := { st with isFetchingSongs := true, songFetchError := none,
                      suggestedArtists := [] }
  let st :=
    match outcome with
    | .success newSongs =>
      let deduplicatedSongs := foldFetchedSongs currentSongs newSongs
      let st := { st with artistSongs := deduplicatedSongs }
      recalculateGraphState st allGraphArtists deduplicatedSongs
    | .failure message =>
      { st with songFetchError := some message, collaborationCount := 0,
                suggestedArtists := [], collaboratorCounts := [] }
  { st with isFetchingSongs := false }

/-- `handleAddSuggestedArtist(artistToAdd)` (page.tsx 328-348), given the
fetch outcome.  Returns the resulting state and whether a fetch was issued;
the guard (page.tsx 332-335) makes it a no-op while a fetch is in flight or
when the artist id is already graphed. -/
def handleAddSuggestedArtist (st : GraphState) (artistToAdd : Artist)
    (outcome : FetchOutcome) : GraphState × Bool :=
  if st.isFetchingSongs || st.graphedArtists.any (fun a => a.id == artistToAdd.id) then
    (st, false)
  else
    let updatedGraphedArtists := st.graphedArtists ++ [artistToAdd]
    let st1 := { st with graphedArtists := updatedGraphedArtists,
                         suggestedArtists := [] }
    (fetchAndProcessSongs st1 st.artistSongs updatedGraphedArtists outcome, true)

/-! ### Credential refresh wrapper
(`callSpotifyWithRefresh`, src/app/api/artist-songs/route.ts 62-133) -/

/-- A fetch `Response` reduced to status and body. -/
structure HttpResponse where
  status : Nat
  body : String
deriving DecidableEq, Repr

/-- `response.ok`: status in the 2xx range. -/
def HttpResponse.ok (r : HttpResponse) : Bool :=
  decide (200 ≤ r.status) && decide (r.status < 300)

/-- The outcome of `refreshAccessToken(refreshToken, clientId)`, passed in
explicitly: a new token with its lifetime, a resolved value without an
`access_token`, or a thrown exception. -/
inductive RefreshResult where
  | success (newAccessToken : String) (expiresIn : Nat)
  | noToken
  | threw (message : String)
deriving DecidableEq, Repr

/-- The distinct terminal errors `callSpotifyWithRefresh` can throw
(route.ts 73, 102, 110, 126-128). -/
inductive WrapperError where
  | authRequired
  | sessionExpired
  | refreshException (message : String)
  | apiError (status : Nat) (body : String)
deriving DecidableEq, Repr

/-- One run of the wrapper: its result plus how many times the wrapped
operation was invoked and how many refresh attempts were made. -/
structure WrapperRun where
  result : Except WrapperError String
  apiCalls : Nat
  refreshAttempts : Nat
deriving Repr

/-- `callSpotifyWithRefresh` (route.ts 62-133): call the operation; on a
401 look up the refresh token (absent ⇒ `authRequired`), attempt exactly
one refresh (failure ⇒ `sessionExpired` / `refreshException`) and on
success retry the operation exactly once; the final response, whether the
first or the retried one, is then checked with `response.ok` and a non-2xx
status is thrown as `apiError` — the 401 branch is never re-entered. -/
def callSpotifyWithRefresh (apiCallFunction : String → HttpResponse)
    (currentAccessToken : String) (refreshToken : Option String)
    (refreshOutcome : RefreshResult) : WrapperRun :=
  let response := apiCallFunction currentAccessToken
  if response.status == 401 then
    match refreshToken with
    | none => ⟨.error .authRequired, 1, 0⟩
    | some _ =>
      match refreshOutcome with
      | .success newAccessToken _ =>
        let retried := apiCallFunction newAccessToken
        if retried.ok then ⟨.ok retried.body, 2, 1⟩
        else ⟨.error (.apiError retried.status retried.body), 2, 1⟩
      | .noToken => ⟨.error .sessionExpired, 1, 1⟩
      | .threw message => ⟨.error (.refreshException message), 1, 1⟩
  else if response.ok then ⟨.ok response.body, 1, 0⟩
  else ⟨.error (.apiError response.status response.body), 1, 0⟩

/-! ### Paginated fetcher (`fetchAllPaginatedItems`, route.ts 137-161) -/

/-- One page response `{ items, next, total }`. -/
structure Page (Item : Type) where
  items : List Item
  next : Option String
  total : Nat
deriving DecidableEq, Repr

/-- `fetchAllPaginatedItems` (route.ts 137-161): each `while (nextUrl)`
iteration issues one wrapped request — modelled by consuming the next
response of the list — appends its `items` and continues exactly when the
page's `next` cursor is non-null. -/
def fetchAllPaginatedItems {Item : Type} : List (Page Item) → List Item
  | [] => []
  | page :: rest =>
    page.items ++
      (match page.next with
        | some _ => fetchAllPaginatedItems rest
        | none => [])

/-! ### Bulk album-detail processing (route.ts 198-257)

The `/v1/albums` bulk endpoint returns `{ albums: (FullAlbum | null)[] }`.
The loop body (route.ts 214-216) skips entries that are `null` or lack a
track listing and flattens the rest. -/

/-- A track inside an album's `tracks.items`; the numeric fields
(`track_number`, `disc_number`, `duration_ms`) are dropped because the
processing never reads them. -/
structure AlbumTrack where
  id : String
  name : String
  artists : List ArtistRef
  uri : String
deriving DecidableEq, Repr

/-- A full album detail entry.  `tracks = none` models a missing
`tracks?.items`; the inner track-listing pagination (route.ts 227-237)
is modelled as the already-exhausted item list. -/
structure FullAlbum where
  id : String
  name : String
  images : List String
  tracks : Option (List AlbumTrack)
deriving DecidableEq, Repr

/-- `tracksWithContext` (route.ts 240-251): attach the parent album's name
and images; `popularity` is left `undefined` (the temporary `albumId` field
is stripped again by the final per-artist dedup, route.ts 262-265). -/
def trackWithContext (album : FullAlbum) (track : AlbumTrack) : Song :=
  ⟨track.id, track.name, track.artists, ⟨album.name, album.images⟩, track.uri, none⟩

/-- The `for (const fullAlbum of batchAlbumsResponse.albums)` loop
(route.ts 214-253): `null` entries and entries without `tracks?.items` are
skipped with `continue`, every other entry contributes its tracks. -/
def processAlbumBatch (albums : List (Option FullAlbum)) : List Song :=
  albums.foldl
    (fun acc entry =>
      match entry with
      | none => acc
      | some fullAlbum =>
        match fullAlbum.tracks with
        | none => acc
        | some trackItems => acc ++ trackItems.map (trackWithContext fullAlbum))
    []

/-! ### Create-playlist request validation (src/unnamed/part_003, 20-50) -/

/-- A JSON array element of `trackUris`: a string or some non-string
value. -/
inductive JsonVal where
  | str (s : String)
  | nonString
deriving DecidableEq, Repr

/-- The parsed request body; `none` fields are absent in the JSON.
`trackUris`, when present, is modelled as an array (the route's
`Array.isArray` guard likewise yields a 400 for non-array values). -/
structure CreatePlaylistBody where
  playlistName : Option String
  trackUris : Option (List JsonVal)
  description : Option String
deriving DecidableEq, Repr

/-- How the POST handler disposes of a request before any Spotify call:
401 without a session cookie, 400 on validation failure, or proceeding to
the remote sequence with the validated URIs. -/
inductive CreatePlaylistOutcome where
  | unauthorized
  | badRequest (message : String)
  | proceed (uris : List String)
deriving DecidableEq, Repr

/-- `typeof uri === 'string' && uri.startsWith('spotify:track:')`
(part_003, 47). -/
def isValidTrackUri (v : JsonVal) : Bool :=
  match v with
  | .str s => s.startsWith "spotify:track:"
  | .nonString => false

/-- The guard sequence of the create-playlist POST handler
(part_003, 23-50): missing access-token cookie ⇒ 401; unparseable body ⇒
400; `!playlistName || !trackUris || !Array.isArray(trackUris) ||
trackUris.length === 0` ⇒ 400; any invalid URI ⇒ 400; otherwise the
handler proceeds to the remote calls. -/
def createPlaylistPOST (userAccessToken : Option String)
    (body : Option CreatePlaylistBody) : CreatePlaylistOutcome :=
  match userAccessToken with
  | none => .unauthorized
  | some _ =>
    match body with
    | none => .badRequest "Invalid request body"
    | some b =>
      let nameFalsy := match b.playlistName with
        | none => true
        | some s => s.isEmpty
      let uris := b.trackUris.getD []
      if nameFalsy || b.trackUris.isNone || uris.isEmpty then
        .badRequest "Missing playlistName or trackUris (must be a non-empty array)"
      else if !uris.all isValidTrackUri then
        .badRequest "Invalid track URIs provided. Ensure they start with spotify:track:"
      else
        .proceed (uris.map (fun v => match v with | .str s => s | .nonString => ""))

/-- The remote operations the handler performs after validation
(part_003, 120-150): one user-profile fetch, one playlist creation, then
one add-tracks call per chunk of 100 URIs.  Rejected requests reach none
of them. -/
def createPlaylistRemoteOps : CreatePlaylistOutcome → List String
  | .proceed uris =>
    "getUserProfile" :: "createUserPlaylist" ::
      (List.range ((uris.length + 99) / 100)).map (fun _ => "addTracksToUserPlaylist")
  | _ => []

/-! ### Helper observations used by the theorems -/

/-- The count stored for artist id `x` in a `counts` association list
(0 when absent). -/
def countLookup (counts : List CollabEntry) (x : String) : Nat :=
  match counts.find? (fun e => e.id == x) with
  | some e => e.count
  | none => 0

/-- Modelled from the claim's words, for comparison with the code: "the
number of accumulated Songs that both include that artist and include at
least one graphed artist". -/
def claimedSongCount (graphArtistIds : List String) (songs : List Song)
    (x : String) : Nat :=
  (songs.filter (fun s => s.artists.any (fun a => a.id == x)
      && s.artists.any (fun a => graphArtistIds.contains a.id))).length

/-- The per-occurrence count the code actually computes: each song with at
least one graphed artist contributes one per occurrence of `x` in its
contributing-artist list.  Coincides with `claimedSongCount` whenever no
song credits the same artist twice. -/
def occurrenceCount (graphArtistIds : List String) (songs : List Song)
    (x : String) : Nat :=
  (songs.map (fun s =>
    if s.artists.any (fun a => graphArtistIds.contains a.id) then
      s.artists.countP (fun a => a.id == x)
    else 0)).sum

/-- The contribution of one bulk-detail entry to the aggregated track list
(empty for a `null` entry or one without a track listing). -/
def albumEntryTracks : Option FullAlbum → List Song
  | none => []
  | some a =>
    match a.tracks with
    | none => []
    | some ts => ts.map (trackWithContext a)

/-! ### Concrete inputs for witnesses and counterexamples -/

/-- The page state before any seed artist is selected. -/
def initialState : GraphState := ⟨"", none, false, [], none, 0, [], [], []⟩

/-- Concrete graphed artist `A`. -/
def artistA : Artist := ⟨"A", "ArtistA", [], none⟩

/-- Concrete artist `B`, not graphed initially. -/
def artistB : Artist := ⟨"B", "ArtistB", [], none⟩

/-- Song S1 of the suggestion-ranking example: artists A and B. -/
def c5Song1 : Song := ⟨"s1", "S1", [⟨"A", "ArtistA"⟩, ⟨"B", "ArtistB"⟩], ⟨"al", []⟩, "u1", none⟩

/-- Song S2 of the suggestion-ranking example: artists A and C. -/
def c5Song2 : Song := ⟨"s2", "S2", [⟨"A", "ArtistA"⟩, ⟨"C", "ArtistC"⟩], ⟨"al", []⟩, "u2", none⟩

/-- Song S3 of the suggestion-ranking example: artists A and C. -/
def c5Song3 : Song := ⟨"s3", "S3", [⟨"A", "ArtistA"⟩, ⟨"C", "ArtistC"⟩], ⟨"al", []⟩, "u3", none⟩

/-- A song crediting artist B twice, distinguishing per-song counting from
per-occurrence counting. -/
def c5DupSong : Song :=
  ⟨"d1", "Dup", [⟨"A", "ArtistA"⟩, ⟨"B", "ArtistB"⟩, ⟨"B", "ArtistB"⟩], ⟨"al", []⟩, "ud", none⟩

/-- A state whose graph holds exactly artist `A`, with one accumulated
song by A and B. -/
def stateWithA : GraphState :=
  ⟨"ArtistA", some artistA, false, [c5Song1], none, 0, [], [], [artistA]⟩

/-- First page of the 3-page pagination example: two items, cursor set. -/
def pageOne : Page Nat := ⟨[10, 11], some "p2", 3⟩

/-- Second page of the pagination example: zero items but a cursor, so
iteration must continue. -/
def pageTwo : Page Nat := ⟨[], some "p3", 3⟩

/-- Final page of the pagination example: one item, no cursor. -/
def pageThree : Page Nat := ⟨[12], none, 3⟩

/-- Concrete song used to witness the dedup claim. -/
def c1SongA : Song :=
  ⟨"t1", "Duet", [⟨"a1", "Alice"⟩, ⟨"a2", "Bob"⟩], ⟨"A", []⟩, "u1", none⟩

/-- Concrete song with the same name and artist-name set as `c1SongA` but a
different remote id and artist order. -/
def c1SongB : Song :=
  ⟨"t2", "Duet", [⟨"a2", "Bob"⟩, ⟨"a1", "Alice"⟩], ⟨"B", []⟩, "u2", none⟩

/-! #### Dedup lemmas -/

theorem dedupSongsAux_filter (k : String) (l : List Song) :
    ∀ seen : List String,
      (dedupSongsAux seen l).filter (fun s => songKey s == k)
        = if k ∈ seen then [] else (l.find? (fun s => songKey s == k)).toList := by
  induction l with
  | nil => intro seen; cases Decidable.em (k ∈ seen) <;> simp_all [dedupSongsAux]
  | cons s rest ih =>
    intro seen
    simp only [dedupSongsAux]
    by_cases hs : songKey s ∈ seen
    · rw [if_pos hs, ih seen]
      by_cases hk : k ∈ seen
      · rw [if_pos hk, if_pos hk]
      · have hb : (songKey s == k) = false := by
          simp only [beq_eq_false_iff_ne, ne_eq]
          intro h; exact hk (h ▸ hs)
        rw [if_neg hk, if_neg hk]
        simp only [List.find?_cons, hb]
    · rw [if_neg hs]
      by_cases hsk : songKey s = k
      · have hk : k ∉ seen := fun h => hs (hsk ▸ h)
        have hb : (songKey s == k) = true := beq_iff_eq.mpr hsk
        rw [if_neg hk]
        simp only [List.filter_cons, List.find?_cons, hb, ih (songKey s :: seen),
          if_pos (show k ∈ songKey s :: seen from hsk ▸ List.mem_cons_self _ seen)]
        rfl
      · have hb : (songKey s == k) = false := by
          simp only [beq_eq_false_iff_ne, ne_eq]; exact hsk
        by_cases hk : k ∈ seen
        · simp [List.filter_cons, List.find?_cons, hb, ih (songKey s :: seen), hk]
        · have hk2 : k ∉ songKey s :: seen := by
            intro h
            rcases List.mem_cons.mp h with h' | h'
            · exact hsk h'.symm
            · exact hk h'
          simp [List.filter_cons, List.find?_cons, hb, ih (songKey s :: seen), hk, hk2]

theorem strLE_trans : ∀ a b c : String, strLE a b → strLE b c → strLE a c := by
  intro a b c hab hbc
  simp only [strLE, decide_eq_true_eq] at *
  exact le_trans hab hbc

theorem strLE_total : ∀ a b : String, strLE a b || strLE b a := by
  intro a b
  simp only [strLE]
  rcases le_total a b with h | h <;> simp [h]

/-- Songs with the same name and order-insensitively equal artist-name lists
get the same dedup key: sorting canonicalises the artist names. -/
theorem songKey_eq_of_name_perm {s1 s2 : Song} (hname : s1.name = s2.name)
    (hperm : (s1.artists.map (·.name)).Perm (s2.artists.map (·.name))) :
    songKey s1 = songKey s2 := by
  unfold songKey sortedArtistNames
  rw [hname]
  have hsort : (s1.artists.map (·.name)).mergeSort strLE
      = (s2.artists.map (·.name)).mergeSort strLE := by
    refine List.Perm.eq_of_sorted ?_
      (List.sorted_mergeSort strLE_trans strLE_total _)
      (List.sorted_mergeSort strLE_trans strLE_total _)
      ((List.mergeSort_perm _ _).trans
        (hperm.trans (List.mergeSort_perm _ _).symm))
    intro a b _ _ hab hba
    simp only [strLE, decide_eq_true_eq] at hab hba
    exact le_antisymm hab hba
  rw [hsort]

/-- C1: folding newly fetched songs into the accumulated collection
deduplicates by the (song name, sorted contributing-artist names) key with
first-seen wins: for any two songs of the combined input (existing songs
before new ones) with identical name and order-insensitively identical
contributing-artist-name lists but different remote identifiers, the two
songs share one dedup key and the merged result contains exactly one song
with that key — the first one encountered in the combined input. -/
theorem C1_fold_dedup_first_seen_wins
    (currentSongs newSongs : List Song) (s1 s2 : Song)
    (h1 : s1 ∈ currentSongs ++ newSongs) (h2 : s2 ∈ currentSongs ++ newSongs)
    (hname : s1.name = s2.name)
    (hperm : (s1.artists.map (·.name)).Perm (s2.artists.map (·.name)))
    (hid : s1.id ≠ s2.id) :
    songKey s2 = songKey s1 ∧
    ∃ first,
      (currentSongs ++ newSongs).find? (fun s => songKey s == songKey s1) = some first ∧
      (foldFetchedSongs currentSongs newSongs).filter
        (fun s => songKey s == songKey s1) = [first] := by
  refine ⟨(songKey_eq_of_name_perm hname hperm).symm, ?_⟩
  have hfind : ((currentSongs ++ newSongs).find?
      (fun s => songKey s == songKey s1)).isSome := by
    rw [List.find?_isSome]
    exact ⟨s1, h1, beq_iff_eq.mpr rfl⟩
  rcases Option.isSome_iff_exists.mp hfind with ⟨first, hfirst⟩
  refine ⟨first, hfirst, ?_⟩
  rw [foldFetchedSongs, dedupSongsAux_filter, if_neg (List.not_mem_nil _), hfirst]
  rfl

/-- Witness for C1 at a concrete input: two songs named "Duet" with artist
names in different orders and different remote ids; only the first survives
the fold. -/
theorem C1_fold_dedup_first_seen_wins_witness :
    songKey c1SongB = songKey c1SongA ∧
    ∃ first,
      ([c1SongA] ++ [c1SongB]).find? (fun s => songKey s == songKey c1SongA)
        = some first ∧
      (foldFetchedSongs [c1SongA] [c1SongB]).filter
        (fun s => songKey s == songKey c1SongA) = [first] :=
  C1_fold_dedup_first_seen_wins [c1SongA] [c1SongB] c1SongA c1SongB
    (by decide) (by decide) (by decide) (by decide) (by decide)

/-! ### Helper lemmas about the state transitions -/

theorem recalculateGraphState_graphedArtists (st : GraphState)
    (gr : List Artist) (songs : List Song) :
    (recalculateGraphState st gr songs).graphedArtists = st.graphedArtists := by
  unfold recalculateGraphState
  split <;> rfl

theorem recalculateGraphState_isFetchingSongs (st : GraphState)
    (gr : List Artist) (songs : List Song) :
    (recalculateGraphState st gr songs).isFetchingSongs = st.isFetchingSongs := by
  unfold recalculateGraphState
  split <;> rfl

theorem recalculateGraphState_artistSongs (st : GraphState)
    (gr : List Artist) (songs : List Song) :
    (recalculateGraphState st gr songs).artistSongs
      = if gr.isEmpty then [] else st.artistSongs := by
  unfold recalculateGraphState
  split <;> simp_all

/-- C2: removing an artist keeps exactly the previously accumulated songs
that still have at least one contributing artist among the remaining
graphed artists; a song kept only because of the removed artist is
dropped. -/
theorem C2_removal_consistency (st : GraphState) (artistIdToRemove : String) (s : Song) :
    s ∈ (handleRemoveArtist st artistIdToRemove).artistSongs ↔
      s ∈ st.artistSongs ∧ ∃ a ∈ s.artists,
        a.id ∈ (st.graphedArtists.filter
          (fun artist => !(artist.id == artistIdToRemove))).map (·.id) := by
  unfold handleRemoveArtist
  rw [recalculateGraphState_artistSongs]
  by_cases hemp : (st.graphedArtists.filter
      (fun artist => !(artist.id == artistIdToRemove))).isEmpty
  · rw [if_pos hemp]
    rw [List.isEmpty_iff] at hemp
    simp [hemp]
  · rw [if_neg hemp]
    simp [List.mem_filter, List.any_eq_true, List.contains, List.elem_eq_mem]

/-- C9: when removing an artist empties the graphed set, a full reset of
the derived state occurs — songs, suggestions, collaborator counts,
collaboration count, the selected seed artist and the active search query
are all cleared. -/
theorem C9_empty_graph_full_reset (st : GraphState) (artistIdToRemove : String)
    (hempty : st.graphedArtists.filter
      (fun artist => !(artist.id == artistIdToRemove)) = []) :
    handleRemoveArtist st artistIdToRemove
      = { st with graphedArtists := [], artistSongs := [], artistQuery := "",
                  selectedArtist := none, suggestedArtists := [],
                  collaboratorCounts := [], collaborationCount := 0 } := by
  unfold handleRemoveArtist recalculateGraphState
  simp [hempty]

/-- Witness for C9: removing the only graphed artist resets everything. -/
theorem C9_empty_graph_full_reset_witness :
    handleRemoveArtist stateWithA "A"
      = { stateWithA with graphedArtists := [], artistSongs := [],
                          artistQuery := "", selectedArtist := none,
                          suggestedArtists := [], collaboratorCounts := [],
                          collaborationCount := 0 } :=
  C9_empty_graph_full_reset stateWithA "A" (by decide)

theorem fetchAndProcessSongs_graphedArtists (st : GraphState)
    (currentSongs : List Song) (allGraphArtists : List Artist)
    (outcome : FetchOutcome) :
    (fetchAndProcessSongs st currentSongs allGraphArtists outcome).graphedArtists
      = st.graphedArtists := by
  unfold fetchAndProcessSongs
  cases outcome with
  | success newSongs => simp [recalculateGraphState_graphedArtists]
  | failure message => rfl

theorem fetchAndProcessSongs_isFetchingSongs (st : GraphState)
    (currentSongs : List Song) (allGraphArtists : List Artist)
    (outcome : FetchOutcome) :
    (fetchAndProcessSongs st currentSongs allGraphArtists outcome).isFetchingSongs
      = false := by
  unfold fetchAndProcessSongs
  cases outcome with
  | success newSongs => rfl
  | failure message => rfl

/-- The add handler is a no-op whenever the artist's id is already in the
graphed list (page.tsx 332-335). -/
theorem handleAdd_noop_of_any (st : GraphState) (artistToAdd : Artist)
    (outcome : FetchOutcome)
    (h : (st.isFetchingSongs
        || st.graphedArtists.any (fun a => a.id == artistToAdd.id)) = true) :
    handleAddSuggestedArtist st artistToAdd outcome = (st, false) := by
  unfold handleAddSuggestedArtist
  rw [if_pos h]

/-- C4: adding an artist whose id is already graphed, or adding while a
fetch is in flight, is a no-op — the state is returned unchanged and no
fetch is issued; consequently adding the same artist twice changes nothing
the second time, whatever the first fetch's outcome. -/
theorem C4_add_artist_idempotent_guarded (st : GraphState) (artistToAdd : Artist)
    (outcome : FetchOutcome) :
    ((st.isFetchingSongs = true ∨ ∃ a ∈ st.graphedArtists, a.id = artistToAdd.id) →
      handleAddSuggestedArtist st artistToAdd outcome = (st, false)) ∧
    (∀ outcome2 : FetchOutcome,
      handleAddSuggestedArtist (handleAddSuggestedArtist st artistToAdd outcome).1
          artistToAdd outcome2
        = ((handleAddSuggestedArtist st artistToAdd outcome).1, false)) := by
  constructor
  · intro h
    apply handleAdd_noop_of_any
    rcases h with h | ⟨a, ha, hid⟩
    · simp [h]
    · refine Bool.or_eq_true_iff.mpr (Or.inr ?_)
      rw [List.any_eq_true]
      exact ⟨a, ha, beq_iff_eq.mpr hid⟩
  · intro outcome2
    by_cases hg : (st.isFetchingSongs
        || st.graphedArtists.any (fun a => a.id == artistToAdd.id)) = true
    · rw [handleAdd_noop_of_any st artistToAdd outcome hg,
        handleAdd_noop_of_any st artistToAdd outcome2 hg]
    · have hres : (handleAddSuggestedArtist st artistToAdd outcome).1.graphedArtists
          = st.graphedArtists ++ [artistToAdd] := by
        unfold handleAddSuggestedArtist
        rw [if_neg hg]
        simp [fetchAndProcessSongs_graphedArtists]
      apply handleAdd_noop_of_any
      refine Bool.or_eq_true_iff.mpr (Or.inr ?_)
      rw [hres, List.any_eq_true]
      exact ⟨artistToAdd, by simp, beq_iff_eq.mpr rfl⟩

/-- Witness for C4: adding artist `A`, already graphed in `stateWithA`,
is a no-op; and after adding the new artist `B`, a second add of `B` is a
no-op whatever the outcomes. -/
theorem C4_add_artist_idempotent_guarded_witness :
    handleAddSuggestedArtist stateWithA artistA (.success []) = (stateWithA, false) ∧
    handleAddSuggestedArtist
        (handleAddSuggestedArtist stateWithA artistB (.success [])).1
        artistB (.failure "again")
      = ((handleAddSuggestedArtist stateWithA artistB (.success [])).1, false) :=
  ⟨(C4_add_artist_idempotent_guarded stateWithA artistA (.success [])).1
      (Or.inr ⟨artistA, by decide, rfl⟩),
   (C4_add_artist_idempotent_guarded stateWithA artistB (.success [])).2
      (.failure "again")⟩

/-- C3: when the wrapped operation returns 401, and returns 401 again
after a successful credential refresh, the wrapper terminates with the
terminal 401 API error (the spec taxonomy's `AuthExpired` case: a second
401 after refresh) having made exactly one refresh attempt and exactly one
retry (two invocations in total); and for every input whatsoever the
wrapper performs at most one refresh and at most two invocations — it
never loops. -/
theorem C3_refresh_retry_bound (apiCallFunction : String → HttpResponse)
    (currentAccessToken refreshTokenValue newAccessToken : String) (expiresIn : Nat)
    (h401 : ∀ t, (apiCallFunction t).status = 401) :
    (callSpotifyWithRefresh apiCallFunction currentAccessToken
        (some refreshTokenValue) (.success newAccessToken expiresIn)).result
      = .error (.apiError 401 (apiCallFunction newAccessToken).body) ∧
    (callSpotifyWithRefresh apiCallFunction currentAccessToken
        (some refreshTokenValue) (.success newAccessToken expiresIn)).refreshAttempts = 1 ∧
    (callSpotifyWithRefresh apiCallFunction currentAccessToken
        (some refreshTokenValue) (.success newAccessToken expiresIn)).apiCalls = 2 ∧
    (∀ (f : String → HttpResponse) (t : String) (rt : Option String)
        (ro : RefreshResult),
      (callSpotifyWithRefresh f t rt ro).refreshAttempts ≤ 1 ∧
      (callSpotifyWithRefresh f t rt ro).apiCalls ≤ 2) := by
  have h1 := h401 currentAccessToken
  have h2 := h401 newAccessToken
  have hok : (apiCallFunction newAccessToken).ok = false := by
    simp [HttpResponse.ok, h2]
  refine ⟨?_, ?_, ?_, ?_⟩
  · simp [callSpotifyWithRefresh, h1, h2, hok]
  · simp [callSpotifyWithRefresh, h1, h2, hok]
  · simp [callSpotifyWithRefresh, h1, h2, hok]
  · intro f t rt ro
    unfold callSpotifyWithRefresh
    by_cases hs : ((f t).status == 401) = true
    · rw [if_pos hs]
      rcases rt with _ | rtv
      · exact ⟨Nat.le_refl 0 |>.step, Nat.le_succ 1⟩
      · cases ro with
        | success tok e =>
          by_cases hr : ((f tok).ok) = true
          · simp [hr]
          · simp [hr]
        | noToken => simp
        | threw m => simp
    · rw [if_neg hs]
      by_cases hr : ((f t).ok) = true
      · simp [hr]
      · simp [hr]

/-- Witness for C3: an operation that always answers 401 with body
"expired", a present refresh token and a successful refresh. -/
theorem C3_refresh_retry_bound_witness :
    (callSpotifyWithRefresh (fun _ => ⟨401, "expired"⟩) "tok0"
        (some "refresh0") (.success "tok1" 3600)).result
      = .error (.apiError 401 ((fun _ : String => (⟨401, "expired"⟩ : HttpResponse)) "tok1").body) ∧
    (callSpotifyWithRefresh (fun _ => ⟨401, "expired"⟩) "tok0"
        (some "refresh0") (.success "tok1" 3600)).refreshAttempts = 1 ∧
    (callSpotifyWithRefresh (fun _ => ⟨401, "expired"⟩) "tok0"
        (some "refresh0") (.success "tok1" 3600)).apiCalls = 2 ∧
    (∀ (f : String → HttpResponse) (t : String) (rt : Option String)
        (ro : RefreshResult),
      (callSpotifyWithRefresh f t rt ro).refreshAttempts ≤ 1 ∧
      (callSpotifyWithRefresh f t rt ro).apiCalls ≤ 2) :=
  C3_refresh_retry_bound (fun _ => ⟨401, "expired"⟩) "tok0" "refresh0" "tok1" 3600
    (fun _ => rfl)

/-- The paginated fetcher, on a response sequence whose non-final pages all
carry a `next` cursor and whose final page carries none, concatenates all
pages' items in page order. -/
theorem fetchAllPaginatedItems_append_last {Item : Type} :
    ∀ (ps : List (Page Item)) (lastPage : Page Item),
      (∀ p ∈ ps, p.next.isSome = true) → lastPage.next = none →
      fetchAllPaginatedItems (ps ++ [lastPage])
        = ((ps ++ [lastPage]).map (·.items)).flatten := by
  intro ps
  induction ps with
  | nil =>
    intro lastPage _ hlast
    simp [fetchAllPaginatedItems, hlast]
  | cons p rest ih =>
    intro lastPage hmid hlast
    have hp : p.next.isSome = true := hmid p (List.mem_cons_self p rest)
    rcases Option.isSome_iff_exists.mp hp with ⟨u, hu⟩
    simp only [List.cons_append, fetchAllPaginatedItems, hu, List.map_cons,
      List.flatten_cons, List.append_eq]
    rw [ih lastPage (fun q hq => hmid q (List.mem_cons_of_mem p hq)) hlast]

/-- C6: for a finite page sequence (`next` present on every page but the
last, absent on the last) the fetcher returns the concatenation of every
page's items in page order, its length is the sum of the per-page item
counts, and iteration ends exactly at the cursorless page — a zero-item
page does not terminate it. -/
theorem C6_pagination_exhaustion {Item : Type} (ps : List (Page Item))
    (lastPage : Page Item)
    (hmid : ∀ p ∈ ps, p.next.isSome = true) (hlast : lastPage.next = none) :
    fetchAllPaginatedItems (ps ++ [lastPage])
      = ((ps ++ [lastPage]).map (·.items)).flatten ∧
    (fetchAllPaginatedItems (ps ++ [lastPage])).length
      = (((ps ++ [lastPage]).map (·.items)).map List.length).sum := by
  have key := fetchAllPaginatedItems_append_last ps lastPage hmid hlast
  exact ⟨key, by rw [key, List.length_flatten]⟩

/-- Witness for C6: a 3-page sequence with a zero-item middle page; the
result has all 3 = 2 + 0 + 1 items. -/
theorem C6_pagination_exhaustion_witness :
    fetchAllPaginatedItems ([pageOne, pageTwo] ++ [pageThree])
      = (([pageOne, pageTwo] ++ [pageThree]).map (·.items)).flatten ∧
    (fetchAllPaginatedItems ([pageOne, pageTwo] ++ [pageThree])).length
      = ((([pageOne, pageTwo] ++ [pageThree]).map (·.items)).map List.length).sum :=
  C6_pagination_exhaustion [pageOne, pageTwo] pageThree (by decide) rfl

/-- C7 counterexample: from `stateWithA` (graph = [A]), adding artist `B`
whose fetch fails leaves the graphed set changed — the new artist stays in
it, so the mutation is not rolled back on failure as the claim states. -/
theorem C7_counterexample_graph_changed :
    (handleAddSuggestedArtist stateWithA artistB (.failure "network error")).1.graphedArtists
      ≠ stateWithA.graphedArtists := by
  decide

/-- C7 (amended): when an add's fetch-and-fold fails, the previously
accumulated songs are unchanged and the in-flight guard is released, but
the graphed set keeps the newly appended artist (the add is not rolled
back); the error is recorded and the derived suggestion state is
cleared. -/
theorem C7_amended_failure_behaviour (st : GraphState) (artistToAdd : Artist)
    (msg : String)
    (hfetch : st.isFetchingSongs = false)
    (hnew : st.graphedArtists.any (fun a => a.id == artistToAdd.id) = false) :
    (handleAddSuggestedArtist st artistToAdd (.failure msg)).1.artistSongs
      = st.artistSongs ∧
    (handleAddSuggestedArtist st artistToAdd (.failure msg)).1.isFetchingSongs
      = false ∧
    (handleAddSuggestedArtist st artistToAdd (.failure msg)).1.graphedArtists
      = st.graphedArtists ++ [artistToAdd] ∧
    (handleAddSuggestedArtist st artistToAdd (.failure msg)).1.songFetchError
      = some msg ∧
    (handleAddSuggestedArtist st artistToAdd (.failure msg)).1.suggestedArtists = [] ∧
    (handleAddSuggestedArtist st artistToAdd (.failure msg)).1.collaboratorCounts = [] ∧
    (handleAddSuggestedArtist st artistToAdd (.failure msg)).1.collaborationCount = 0 ∧
    (handleAddSuggestedArtist st artistToAdd (.failure msg)).2 = true := by
  have hg : (st.isFetchingSongs
      || st.graphedArtists.any (fun a => a.id == artistToAdd.id)) = false := by
    rw [hfetch, hnew]
    rfl
  unfold handleAddSuggestedArtist
  rw [hg]
  simp [fetchAndProcessSongs]

/-- Witness for the amended C7 at `stateWithA` with new artist `B`. -/
theorem C7_amended_failure_behaviour_witness :
    (handleAddSuggestedArtist stateWithA artistB (.failure "network error")).1.artistSongs
      = stateWithA.artistSongs ∧
    (handleAddSuggestedArtist stateWithA artistB (.failure "network error")).1.isFetchingSongs
      = false ∧
    (handleAddSuggestedArtist stateWithA artistB (.failure "network error")).1.graphedArtists
      = stateWithA.graphedArtists ++ [artistB] ∧
    (handleAddSuggestedArtist stateWithA artistB (.failure "network error")).1.songFetchError
      = some "network error" ∧
    (handleAddSuggestedArtist stateWithA artistB (.failure "network error")).1.suggestedArtists = [] ∧
    (handleAddSuggestedArtist stateWithA artistB (.failure "network error")).1.collaboratorCounts = [] ∧
    (handleAddSuggestedArtist stateWithA artistB (.failure "network error")).1.collaborationCount = 0 ∧
    (handleAddSuggestedArtist stateWithA artistB (.failure "network error")).2 = true :=
  C7_amended_failure_behaviour stateWithA artistB "network error" rfl (by decide)

/-- The batch loop equals the flat concatenation of each entry's
contribution. -/
theorem processAlbumBatch_eq_flatten_aux (es : List (Option FullAlbum)) :
    ∀ acc : List Song,
      es.foldl
          (fun acc entry =>
            match entry with
            | none => acc
            | some fullAlbum =>
              match fullAlbum.tracks with
              | none => acc
              | some trackItems => acc ++ trackItems.map (trackWithContext fullAlbum))
          acc
        = acc ++ (es.map albumEntryTracks).flatten := by
  induction es with
  | nil => intro acc; simp
  | cons entry rest ih =>
    intro acc
    rcases entry with _ | album
    · simpa [albumEntryTracks] using ih acc
    · rcases htr : album.tracks with _ | trackItems
      · simp only [List.foldl_cons, htr, List.map_cons, List.flatten_cons,
          albumEntryTracks]
        rw [ih acc]
        simp
      · simp only [List.foldl_cons, htr, List.map_cons, List.flatten_cons,
          albumEntryTracks]
        rw [ih (acc ++ trackItems.map (trackWithContext album))]
        simp

/-- C8: in a bulk album-detail batch, `null` entries (and entries without
a track listing) are skipped and contribute nothing, while the other
entries of the same batch are still processed — the result is exactly the
concatenation of each non-null entry's context-attached tracks, and
inserting a skipped entry anywhere leaves it unchanged (never an error).

Hypotheses: `entry` is `null` or lacks a track listing. -/
theorem C8_null_entries_skipped (e1 e2 : List (Option FullAlbum))
    (entry : Option FullAlbum)
    (hskip : entry = none ∨ ∃ a, entry = some a ∧ a.tracks = none) :
    processAlbumBatch (e1 ++ entry :: e2) = processAlbumBatch (e1 ++ e2) ∧
    ∀ es : List (Option FullAlbum),
      processAlbumBatch es = (es.map albumEntryTracks).flatten := by
  have hall : ∀ es : List (Option FullAlbum),
      processAlbumBatch es = (es.map albumEntryTracks).flatten := by
    intro es
    unfold processAlbumBatch
    simpa using processAlbumBatch_eq_flatten_aux es []
  have hzero : albumEntryTracks entry = [] := by
    rcases hskip with rfl | ⟨a, rfl, ha⟩
    · rfl
    · simp [albumEntryTracks, ha]
  refine ⟨?_, hall⟩
  rw [hall, hall]
  simp [hzero]

/-- Witness for C8: a batch [album with one track, null, album with one
track]; the null entry is skipped, both real albums contribute. -/
theorem C8_null_entries_skipped_witness :
    processAlbumBatch
        ([some ⟨"al1", "Album1", [], some [⟨"tr1", "T1", [⟨"A", "ArtistA"⟩], "u1"⟩]⟩]
          ++ none
          :: [some ⟨"al2", "Album2", [], some [⟨"tr2", "T2", [⟨"B", "ArtistB"⟩], "u2"⟩]⟩])
      = processAlbumBatch
          ([some ⟨"al1", "Album1", [], some [⟨"tr1", "T1", [⟨"A", "ArtistA"⟩], "u1"⟩]⟩]
            ++ [some ⟨"al2", "Album2", [], some [⟨"tr2", "T2", [⟨"B", "ArtistB"⟩], "u2"⟩]⟩]) ∧
    ∀ es : List (Option FullAlbum),
      processAlbumBatch es = (es.map albumEntryTracks).flatten :=
  C8_null_entries_skipped
    [some ⟨"al1", "Album1", [], some [⟨"tr1", "T1", [⟨"A", "ArtistA"⟩], "u1"⟩]⟩]
    [some ⟨"al2", "Album2", [], some [⟨"tr2", "T2", [⟨"B", "ArtistB"⟩], "u2"⟩]⟩]
    none (Or.inl rfl)

/-- C10 counterexample: a request without the session access-token cookie
and with `trackUris` missing is rejected with 401 (the auth guard runs
first), not with the claimed 400 — though still before any remote call. -/
theorem C10_counterexample_unauthenticated :
    createPlaylistPOST none (some ⟨some "My Playlist", none, none⟩)
        = CreatePlaylistOutcome.unauthorized ∧
    (∀ msg, CreatePlaylistOutcome.unauthorized ≠ CreatePlaylistOutcome.badRequest msg) ∧
    createPlaylistRemoteOps
        (createPlaylistPOST none (some ⟨some "My Playlist", none, none⟩)) = [] :=
  ⟨rfl, fun _ h => CreatePlaylistOutcome.noConfusion h, rfl⟩

/-- C10 (amended): for every create-playlist request that carries the
session access-token cookie, if the body is unparseable or its `trackUris`
field is missing, empty, or contains any element that is not a string
beginning with "spotify:track:", the route rejects with a 400 error and
reaches none of the remote operations — no user-profile fetch, no playlist
creation, no track addition. -/
theorem C10_amended_validation_rejects_before_remote (token : String)
    (body : Option CreatePlaylistBody)
    (hbad : body = none ∨ ∃ b, body = some b ∧
      (b.trackUris = none ∨ b.trackUris = some [] ∨
        ∃ uris, b.trackUris = some uris ∧ uris.all isValidTrackUri = false)) :
    (∃ msg, createPlaylistPOST (some token) body
        = CreatePlaylistOutcome.badRequest msg) ∧
    createPlaylistRemoteOps (createPlaylistPOST (some token) body) = [] := by
  have hmsg : ∃ msg, createPlaylistPOST (some token) body
      = CreatePlaylistOutcome.badRequest msg := by
    rcases hbad with rfl | ⟨b, rfl, hb⟩
    · exact ⟨"Invalid request body", rfl⟩
    · rcases hb with h | h | ⟨uris, hu, hv⟩
      · refine ⟨"Missing playlistName or trackUris (must be a non-empty array)", ?_⟩
        simp [createPlaylistPOST, h]
      · refine ⟨"Missing playlistName or trackUris (must be a non-empty array)", ?_⟩
        simp [createPlaylistPOST, h]
      · by_cases hfirst : ((match b.playlistName with
            | none => true
            | some s => s.isEmpty) || b.trackUris.isNone
            || (b.trackUris.getD []).isEmpty) = true
        · refine ⟨"Missing playlistName or trackUris (must be a non-empty array)", ?_⟩
          simp only [createPlaylistPOST]
          rw [if_pos hfirst]
        · refine ⟨"Invalid track URIs provided. Ensure they start with spotify:track:", ?_⟩
          simp only [createPlaylistPOST]
          rw [if_neg hfirst, if_pos ?_]
          rw [hu]
          simp only [Option.getD_some, hv]
          rfl
  rcases hmsg with ⟨msg, hm⟩
  exact ⟨⟨msg, hm⟩, by rw [hm]; rfl⟩

/-- Witness for the amended C10: an authenticated request whose
`trackUris` holds a non-string element. -/
theorem C10_amended_validation_rejects_before_remote_witness :
    (∃ msg, createPlaylistPOST (some "tok")
        (some ⟨some "My Playlist", some [JsonVal.nonString], none⟩)
        = CreatePlaylistOutcome.badRequest msg) ∧
    createPlaylistRemoteOps (createPlaylistPOST (some "tok")
        (some ⟨some "My Playlist", some [JsonVal.nonString], none⟩)) = [] :=
  C10_amended_validation_rejects_before_remote "tok"
    (some ⟨some "My Playlist", some [JsonVal.nonString], none⟩)
    (Or.inr ⟨_, rfl, Or.inr (Or.inr ⟨[JsonVal.nonString], rfl, by decide⟩)⟩)

/-! ### Counting lemmas for the suggestion recomputation -/

theorem bumpCollab_countLookup (counts : List CollabEntry) (a : ArtistRef)
    (album : AlbumRef) (x : String) :
    countLookup (bumpCollab counts a album) x
      = countLookup counts x + (if a.id = x then 1 else 0) := by
  have hcmp : ((fun e : CollabEntry => e.id == x) ∘
      (fun e : CollabEntry =>
        if e.id == a.id then { e with count := e.count + 1 } else e))
      = (fun e : CollabEntry => e.id == x) := by
    funext e
    by_cases h : (e.id == a.id) = true <;> simp [Function.comp, h]
  unfold bumpCollab
  by_cases hany : counts.any (fun e => e.id == a.id) = true
  · rw [if_pos hany]
    unfold countLookup
    rw [List.find?_map, hcmp]
    rcases hf : counts.find? (fun e => e.id == x) with _ | e0
    · by_cases hx : a.id = x
      · exfalso
        rcases List.any_eq_true.mp hany with ⟨e, he, hbeq⟩
        apply List.find?_eq_none.mp hf e he
        simp only [beq_iff_eq] at hbeq ⊢
        rw [hbeq, hx]
      · simp [hf, hx]
    · have he0 := List.find?_some hf
      simp only [beq_iff_eq] at he0
      by_cases hx : a.id = x
      · have hup : (e0.id == a.id) = true := by
          simp only [beq_iff_eq]
          rw [he0, hx]
        simp [hf, hup, hx, he0]
      · have hne : ¬e0.id = a.id := fun hcon => hx (hcon.symm.trans he0)
        simp [hf, hne, hx]
  · rw [if_neg hany]
    unfold countLookup
    rw [List.find?_append]
    have hany' : counts.any (fun e => e.id == a.id) = false := by
      simpa using hany
    by_cases hx : a.id = x
    · subst hx
      have hfx : counts.find? (fun e => e.id == a.id) = none :=
        List.find?_eq_none.mpr (List.any_eq_false.mp hany')
      rw [hfx]
      simp [List.find?]
    · have hnew : ((⟨a.id, a.name, 1, smallestAlbumImage album⟩ : CollabEntry).id == x)
          = false := by
        simp only [beq_eq_false_iff_ne, ne_eq]
        exact hx
      rcases hf : counts.find? (fun e => e.id == x) with _ | e0 <;>
        simp [hf, List.find?, hnew, hx]

theorem foldl_bump_countLookup (album : AlbumRef) (x : String) :
    ∀ (collabs : List ArtistRef) (counts : List CollabEntry),
      countLookup (collabs.foldl (fun c a => bumpCollab c a album) counts) x
        = countLookup counts x + collabs.countP (fun a => a.id == x) := by
  intro collabs
  induction collabs with
  | nil => intro counts; simp
  | cons a rest ih =>
    intro counts
    simp only [List.foldl_cons, List.countP_cons]
    rw [ih, bumpCollab_countLookup]
    by_cases h : a.id = x
    · simp only [h, beq_self_eq_true, if_true]
      omega
    · have hb : (a.id == x) = false := by
        simp only [beq_eq_false_iff_ne, ne_eq]
        exact h
      simp [h, hb]

theorem processSongCounts_countLookup (g : List String) (song : Song)
    (x : String) (hx : g.contains x = false) (counts : List CollabEntry) :
    countLookup (processSongCounts g counts song) x
      = countLookup counts x
        + (if song.artists.any (fun a => g.contains a.id) then
            song.artists.countP (fun a => a.id == x) else 0) := by
  have hxg : x ∉ g := by
    intro hmem
    rw [List.contains_eq_any_beq] at hx
    exact List.any_eq_false.mp hx x hmem (beq_iff_eq.mpr rfl)
  unfold processSongCounts
  by_cases hrel : (song.artists.any (fun a => g.contains a.id)
      && !(song.artists.filter (fun a => !g.contains a.id)).isEmpty) = true
  · rw [if_pos hrel]
    rw [foldl_bump_countLookup]
    have hcnt : (song.artists.filter (fun a => !g.contains a.id)).countP
        (fun a => a.id == x) = song.artists.countP (fun a => a.id == x) := by
      rw [List.countP_filter]
      apply List.countP_congr
      intro a _
      constructor
      · intro h
        exact (Bool.and_eq_true _ _ |>.mp h).1
      · intro h
        rw [Bool.and_eq_true]
        refine ⟨h, ?_⟩
        simp only [beq_iff_eq] at h
        simp [h, hxg]
    rw [hcnt, if_pos (Bool.and_eq_true _ _ |>.mp hrel).1]
  · rw [if_neg hrel]
    by_cases hg : song.artists.any (fun a => g.contains a.id) = true
    · rw [if_pos hg]
      have hempty : (song.artists.filter (fun a => !g.contains a.id)) = [] := by
        cases he : (song.artists.filter (fun a => !g.contains a.id)).isEmpty with
        | true => exact List.isEmpty_iff.mp he
        | false =>
          exfalso
          apply hrel
          rw [Bool.and_eq_true]
          exact ⟨hg, by rw [he]; rfl⟩
      have hzero : song.artists.countP (fun a => a.id == x) = 0 := by
        rw [List.countP_eq_zero]
        intro a ha hpa
        have hmem := List.filter_eq_nil_iff.mp hempty a ha
        simp only [beq_iff_eq] at hpa
        apply hmem
        simp [hpa, hxg]
      rw [hzero]
      omega
    · rw [if_neg hg]
      omega

theorem foldl_processSong_countLookup (g : List String) (x : String)
    (hx : g.contains x = false) :
    ∀ (songs : List Song) (counts : List CollabEntry),
      countLookup (songs.foldl (processSongCounts g) counts) x
        = countLookup counts x + occurrenceCount g songs x := by
  intro songs
  induction songs with
  | nil => intro counts; simp [occurrenceCount]
  | cons s rest ih =>
    intro counts
    simp only [List.foldl_cons, occurrenceCount, List.map_cons, List.sum_cons]
    rw [ih, processSongCounts_countLookup g s x hx]
    unfold occurrenceCount
    omega

/-- The count the code stores for a non-graphed artist id equals the
per-occurrence count over songs that include at least one graphed
artist. -/
theorem collabCounts_countLookup (g : List String) (songs : List Song)
    (x : String) (hx : g.contains x = false) :
    countLookup (collabCounts g songs) x = occurrenceCount g songs x := by
  unfold collabCounts
  rw [foldl_processSong_countLookup g x hx]
  simp [countLookup, List.find?]

/-! ### Membership and distinctness of candidate entries -/

theorem bumpCollab_mem_ids (P : String → Prop) (counts : List CollabEntry)
    (a : ArtistRef) (album : AlbumRef)
    (hc : ∀ e ∈ counts, P e.id) (ha : P a.id) :
    ∀ e ∈ bumpCollab counts a album, P e.id := by
  intro e he
  unfold bumpCollab at he
  by_cases hany : counts.any (fun e => e.id == a.id) = true
  · rw [if_pos hany] at he
    rcases List.mem_map.mp he with ⟨e0, he0, rfl⟩
    by_cases h : (e0.id == a.id) = true
    · simpa [h] using hc e0 he0
    · simpa [h] using hc e0 he0
  · rw [if_neg hany] at he
    rcases List.mem_append.mp he with h | h
    · exact hc e h
    · rw [List.mem_singleton.mp h]
      exact ha

theorem foldl_bump_mem_ids (P : String → Prop) (album : AlbumRef) :
    ∀ (collabs : List ArtistRef) (counts : List CollabEntry),
      (∀ a ∈ collabs, P a.id) → (∀ e ∈ counts, P e.id) →
      ∀ e ∈ collabs.foldl (fun c a => bumpCollab c a album) counts, P e.id := by
  intro collabs
  induction collabs with
  | nil => intro counts _ hc e he; exact hc e he
  | cons a rest ih =>
    intro counts hca hc
    simp only [List.foldl_cons]
    exact ih _ (fun b hb => hca b (List.mem_cons_of_mem a hb))
      (bumpCollab_mem_ids P counts a album hc (hca a (List.mem_cons_self a rest)))

theorem processSongCounts_mem_ids (g : List String) (song : Song)
    (counts : List CollabEntry)
    (hc : ∀ e ∈ counts, g.contains e.id = false) :
    ∀ e ∈ processSongCounts g counts song, g.contains e.id = false := by
  unfold processSongCounts
  by_cases hrel : (song.artists.any (fun a => g.contains a.id)
      && !(song.artists.filter (fun a => !g.contains a.id)).isEmpty) = true
  · rw [if_pos hrel]
    apply foldl_bump_mem_ids (fun i => g.contains i = false)
    · intro a ha
      have := (List.mem_filter.mp ha).2
      simpa using this
    · exact hc
  · rw [if_neg hrel]
    exact hc

theorem foldl_processSong_mem_ids (g : List String) :
    ∀ (songs : List Song) (counts : List CollabEntry),
      (∀ e ∈ counts, g.contains e.id = false) →
      ∀ e ∈ songs.foldl (processSongCounts g) counts, g.contains e.id = false := by
  intro songs
  induction songs with
  | nil => intro counts hc; exact hc
  | cons s rest ih =>
    intro counts hc
    exact ih _ (processSongCounts_mem_ids g s counts hc)

/-- Every candidate entry belongs to an artist outside the graphed set. -/
theorem collabCounts_not_graphed (g : List String) (songs : List Song) :
    ∀ e ∈ collabCounts g songs, g.contains e.id = false :=
  foldl_processSong_mem_ids g songs []
    (fun e he => absurd he (List.not_mem_nil e))

theorem bumpCollab_ids (counts : List CollabEntry) (a : ArtistRef)
    (album : AlbumRef) :
    (bumpCollab counts a album).map (·.id)
      = if counts.any (fun e => e.id == a.id) then counts.map (·.id)
        else counts.map (·.id) ++ [a.id] := by
  unfold bumpCollab
  by_cases hany : counts.any (fun e => e.id == a.id) = true
  · rw [if_pos hany, if_pos hany, List.map_map]
    apply List.map_congr_left
    intro e _
    by_cases h : e.id = a.id <;> simp [h]
  · rw [if_neg hany, if_neg hany]
    simp

theorem bumpCollab_ids_nodup (counts : List CollabEntry) (a : ArtistRef)
    (album : AlbumRef) (h : (counts.map (·.id)).Nodup) :
    ((bumpCollab counts a album).map (·.id)).Nodup := by
  rw [bumpCollab_ids]
  by_cases hany : counts.any (fun e => e.id == a.id) = true
  · rw [if_pos hany]
    exact h
  · rw [if_neg hany]
    refine h.append (List.nodup_singleton a.id) ?_
    intro i hi hii
    rw [List.mem_singleton.mp hii] at hi
    rcases List.mem_map.mp hi with ⟨e, he, hei⟩
    have hall : ∀ x ∈ counts, ¬x.id = a.id := by simpa using hany
    exact hall e he hei

theorem foldl_bump_ids_nodup (album : AlbumRef) :
    ∀ (collabs : List ArtistRef) (counts : List CollabEntry),
      (counts.map (·.id)).Nodup →
      (((collabs.foldl (fun c a => bumpCollab c a album) counts)).map (·.id)).Nodup := by
  intro collabs
  induction collabs with
  | nil => intro counts h; exact h
  | cons a rest ih =>
    intro counts h
    exact ih _ (bumpCollab_ids_nodup counts a album h)

theorem processSongCounts_ids_nodup (g : List String) (song : Song)
    (counts : List CollabEntry) (h : (counts.map (·.id)).Nodup) :
    ((processSongCounts g counts song).map (·.id)).Nodup := by
  unfold processSongCounts
  by_cases hrel : (song.artists.any (fun a => g.contains a.id)
      && !(song.artists.filter (fun a => !g.contains a.id)).isEmpty) = true
  · rw [if_pos hrel]
    exact foldl_bump_ids_nodup song.album _ counts h
  · rw [if_neg hrel]
    exact h

/-- Candidate artist ids are pairwise distinct: the exposed candidate
total counts distinct artists. -/
theorem collabCounts_ids_nodup (g : List String) (songs : List Song) :
    ((collabCounts g songs).map (·.id)).Nodup := by
  unfold collabCounts
  suffices h : ∀ (ss : List Song) (counts : List CollabEntry),
      (counts.map (·.id)).Nodup →
      ((ss.foldl (processSongCounts g) counts).map (·.id)).Nodup by
    exact h songs [] List.nodup_nil
  intro ss
  induction ss with
  | nil => intro counts h; exact h
  | cons s rest ih =>
    intro counts h
    exact ih _ (processSongCounts_ids_nodup g s counts h)

theorem countGE_trans : ∀ a b c : CollabEntry, countGE a b → countGE b c → countGE a c := by
  intro a b c hab hbc
  simp only [countGE, decide_eq_true_eq] at *
  omega

theorem countGE_total : ∀ a b : CollabEntry, countGE a b || countGE b a := by
  intro a b
  simp only [countGE]
  by_cases h : b.count ≤ a.count
  · simp [h]
  · simp [h, Nat.le_of_not_le h]

/-- `recalculateGraphState` on a non-empty graph, spelled out. -/
theorem recalculateGraphState_nonempty (st : GraphState) (gr : List Artist)
    (songs : List Song) (hne : gr ≠ []) :
    recalculateGraphState st gr songs
      = { st with
          collaboratorCounts := collabCounts (gr.map (·.id)) songs,
          suggestedArtists :=
            ((sortCollaborators (collabCounts (gr.map (·.id)) songs)).take 10).map
              suggestionOfEntry,
          collaborationCount :=
            (sortCollaborators (collabCounts (gr.map (·.id)) songs)).length } := by
  unfold recalculateGraphState
  rw [if_neg (fun h => hne (List.isEmpty_iff.mp h))]

/-- C5 counterexample: for a song crediting artist B twice (artists
[A, B, B]) with graphed = {A}, the code's exposed count for B is 2 — one
per occurrence — while the number of accumulated songs that include B and
a graphed artist is 1, so the claim's per-song characterisation of the
count fails. -/
theorem C5_counterexample_duplicate_credit :
    countLookup
        ((recalculateGraphState initialState [artistA] [c5DupSong]).collaboratorCounts)
        "B" = 2 ∧
    claimedSongCount ([artistA].map (·.id)) [c5DupSong] "B" = 1 ∧
    (2 : Nat) ≠ 1 := by
  decide

/-- C5 (amended): for a non-empty graphed set, the recomputation exposes
as `collaboratorCounts` exactly the candidate entries built in
first-encountered order, where the count of each artist id outside the
graphed set is the total number of occurrences of that id in the
contributing lists of accumulated songs having at least one graphed artist
(equal to the number of such songs whenever no song credits an artist
twice); candidate ids are distinct and outside the graphed set; the
candidates are sorted by count descending with ties kept in
first-encountered order (stable sort), the top 10 are exposed as
suggestions and the candidate total as the potential-collaborations count;
in particular for graphed {A} and songs S1(A,B), S2(A,C), S3(A,C) the
suggestions rank C above B. -/
theorem C5_amended_suggestion_ranking (st : GraphState)
    (currentGraphArtists : List Artist) (currentSongs : List Song)
    (hne : currentGraphArtists ≠ []) :
    (recalculateGraphState st currentGraphArtists currentSongs).collaboratorCounts
      = collabCounts (currentGraphArtists.map (·.id)) currentSongs ∧
    (recalculateGraphState st currentGraphArtists currentSongs).suggestedArtists
      = ((sortCollaborators
            (collabCounts (currentGraphArtists.map (·.id)) currentSongs)).take 10).map
          suggestionOfEntry ∧
    (recalculateGraphState st currentGraphArtists currentSongs).collaborationCount
      = (collabCounts (currentGraphArtists.map (·.id)) currentSongs).length ∧
    (∀ x, (currentGraphArtists.map (·.id)).contains x = false →
      countLookup (collabCounts (currentGraphArtists.map (·.id)) currentSongs) x
        = occurrenceCount (currentGraphArtists.map (·.id)) currentSongs x) ∧
    (∀ e ∈ collabCounts (currentGraphArtists.map (·.id)) currentSongs,
      (currentGraphArtists.map (·.id)).contains e.id = false) ∧
    ((collabCounts (currentGraphArtists.map (·.id)) currentSongs).map (·.id)).Nodup ∧
    (sortCollaborators
        (collabCounts (currentGraphArtists.map (·.id)) currentSongs)).Perm
      (collabCounts (currentGraphArtists.map (·.id)) currentSongs) ∧
    List.Pairwise (fun a b : CollabEntry => b.count ≤ a.count)
      (sortCollaborators (collabCounts (currentGraphArtists.map (·.id)) currentSongs)) ∧
    (∀ x y : CollabEntry, x.count = y.count →
      [x, y].Sublist (collabCounts (currentGraphArtists.map (·.id)) currentSongs) →
      [x, y].Sublist
        (sortCollaborators (collabCounts (currentGraphArtists.map (·.id)) currentSongs))) ∧
    (recalculateGraphState initialState [artistA]
        [c5Song1, c5Song2, c5Song3]).suggestedArtists.map (·.id) = ["C", "B"] := by
  rw [recalculateGraphState_nonempty st currentGraphArtists currentSongs hne]
  refine ⟨rfl, rfl, ?_, ?_, ?_, ?_, ?_, ?_, ?_, ?_⟩
  · simp [sortCollaborators]
  · intro x hx
    exact collabCounts_countLookup _ currentSongs x hx
  · exact collabCounts_not_graphed _ currentSongs
  · exact collabCounts_ids_nodup _ currentSongs
  · exact List.mergeSort_perm _ _
  · exact (List.sorted_mergeSort countGE_trans countGE_total _).imp
      (fun h => by simpa [countGE] using h)
  · intro x y hxy hsub
    apply List.pair_sublist_mergeSort countGE_trans countGE_total ?_ hsub
    simp [countGE, hxy]
  · rw [recalculateGraphState_nonempty initialState [artistA]
      [c5Song1, c5Song2, c5Song3] (by decide)]
    have hc : collabCounts ([artistA].map (·.id)) [c5Song1, c5Song2, c5Song3]
        = [⟨"B", "ArtistB", 1, []⟩, ⟨"C", "ArtistC", 2, []⟩] := by decide
    have hs : sortCollaborators [⟨"B", "ArtistB", 1, []⟩, ⟨"C", "ArtistC", 2, []⟩]
        = [⟨"C", "ArtistC", 2, []⟩, ⟨"B", "ArtistB", 1, []⟩] := by
      simp [sortCollaborators, List.mergeSort, List.merge, countGE]
    show (((sortCollaborators (collabCounts ([artistA].map (·.id))
        [c5Song1, c5Song2, c5Song3])).take 10).map suggestionOfEntry).map (·.id)
        = ["C", "B"]
    rw [hc, hs]
    rfl

/-- Witness for the amended C5 at graphed = [A] and the three-song
example. -/
theorem C5_amended_suggestion_ranking_witness :
    (recalculateGraphState initialState [artistA]
        [c5Song1, c5Song2, c5Song3]).collaboratorCounts
      = collabCounts ([artistA].map (·.id)) [c5Song1, c5Song2, c5Song3] ∧
    (recalculateGraphState initialState [artistA]
        [c5Song1, c5Song2, c5Song3]).suggestedArtists
      = ((sortCollaborators
            (collabCounts ([artistA].map (·.id)) [c5Song1, c5Song2, c5Song3])).take 10).map
          suggestionOfEntry ∧
    (recalculateGraphState initialState [artistA]
        [c5Song1, c5Song2, c5Song3]).collaborationCount
      = (collabCounts ([artistA].map (·.id)) [c5Song1, c5Song2, c5Song3]).length ∧
    (∀ x, ([artistA].map (·.id)).contains x = false →
      countLookup (collabCounts ([artistA].map (·.id)) [c5Song1, c5Song2, c5Song3]) x
        = occurrenceCount ([artistA].map (·.id)) [c5Song1, c5Song2, c5Song3] x) ∧
    (∀ e ∈ collabCounts ([artistA].map (·.id)) [c5Song1, c5Song2, c5Song3],
      ([artistA].map (·.id)).contains e.id = false) ∧
    ((collabCounts ([artistA].map (·.id)) [c5Song1, c5Song2, c5Song3]).map (·.id)).Nodup ∧
    (sortCollaborators
        (collabCounts ([artistA].map (·.id)) [c5Song1, c5Song2, c5Song3])).Perm
      (collabCounts ([artistA].map (·.id)) [c5Song1, c5Song2, c5Song3]) ∧
    List.Pairwise (fun a b : CollabEntry => b.count ≤ a.count)
      (sortCollaborators (collabCounts ([artistA].map (·.id)) [c5Song1, c5Song2, c5Song3])) ∧
    (∀ x y : CollabEntry, x.count = y.count →
      [x, y].Sublist (collabCounts ([artistA].map (·.id)) [c5Song1, c5Song2, c5Song3]) →
      [x, y].Sublist
        (sortCollaborators (collabCounts ([artistA].map (·.id)) [c5Song1, c5Song2, c5Song3]))) ∧
    (recalculateGraphState initialState [artistA]
        [c5Song1, c5Song2, c5Song3]).suggestedArtists.map (·.id) = ["C", "B"] :=
  C5_amended_suggestion_ranking initialState [artistA] [c5Song1, c5Song2, c5Song3]
    (by decide)

end SpotifyGraph
